import Mathlib

/-!
Verification of the model-fallback Netlify function in
`src/netlify/functions/ai.ts` (repository tungpham42/groq-prompt).

The file shallow-embeds the two components of the source:

* `generateWithFallback` — the recursive fallback orchestrator.  The provider
  collaborator (`groq.chat.completions.create`) is modelled as a pure function
  of the prompt, the attempt index and the model identifier; passing the
  attempt index lets a stateful provider stub (one that answers differently on
  successive calls) be expressed as a pure function, since the source calls the
  provider exactly once per index.  Besides the outcome, the embedding returns
  the list of models attempted, in order: this models the per-attempt
  `console.log` record at lines 38-40 of the source.

* `handler` — the request adapter.  `JSON.parse` is abstracted as a
  `String → Option JsonValue` parameter (`none` models a parse exception), and
  the serialized response body (`JSON.stringify`) is modelled by the
  `JsonValue` it serializes.  JavaScript truthiness and the TypeError raised by
  reading a property of `null` are modelled explicitly.
-/

namespace GroqPrompt

/-- A JSON value, the result of a successful `JSON.parse`. -/
inductive JsonValue where
  | null
  | boolean (b : Bool)
  | number (n : Int)
  | string (s : String)
  | array (elems : List JsonValue)
  | object (fields : List (String × JsonValue))
deriving Repr

/-- JavaScript truthiness of a value; `none` stands for `undefined`.
Falsy values: `undefined`, `null`, `false`, `0`, the empty string. -/
def truthy : Option JsonValue → Bool
  | none => false
  | some .null => false
  | some (.boolean b) => b
  | some (.number n) => n != 0
  | some (.string s) => s != ""
  | some (.array _) => true
  | some (.object _) => true

/-- The message of the TypeError Node raises for `null.<k>`. -/
def typeErrorMessage (k : String) : String :=
  "Cannot read properties of null (reading \x27" ++ k ++ "\x27)"

/-- JavaScript property read `v.k` on a parsed JSON value: reading a property
of `null` throws a TypeError (`.error`), a missing field or a read on a
non-object primitive yields `undefined` (`.ok none`). -/
def getProp (v : JsonValue) (k : String) : Except String (Option JsonValue) :=
  match v with
  | .null => .error (typeErrorMessage k)
  | .object fields => .ok (fields.lookup k)
  | _ => .ok none

/-- The MODELS priority list (lines 10-15 of the source). -/
def MODELS : List String :=
  ["openai/gpt-oss-120b", "openai/gpt-oss-20b",
   "llama-3.3-70b-versatile", "llama-3.1-8b-instant"]

/-- The CORS_HEADERS constant (lines 17-21 of the source). -/
def CORS_HEADERS : List (String × String) :=
  [("Access-Control-Allow-Origin", "*"),
   ("Access-Control-Allow-Headers", "Content-Type"),
   ("Access-Control-Allow-Methods", "POST, OPTIONS")]

/-- An error thrown by the provider collaborator.  `status` and `statusCode`
model the attributes read at line 55; `none` models an absent attribute. -/
structure ProviderError where
  status : Option Nat
  statusCode : Option Nat
  message : String
deriving Repr, DecidableEq

/-- `message.content` of a completion choice (`null` content is `none`). -/
structure Message where
  content : Option String
deriving Repr, DecidableEq

/-- One element of `chatCompletion.choices` (`message` may be absent). -/
structure Choice where
  message : Option Message
deriving Repr, DecidableEq

/-- The completion object the provider returns on success. -/
structure ChatCompletion where
  choices : List Choice
deriving Repr, DecidableEq

/-- What one provider call produces: a completion or a thrown error. -/
inductive ProviderResult where
  | ok (completion : ChatCompletion)
  | err (e : ProviderError)
deriving Repr, DecidableEq

/-- `error.status || error.statusCode || 500` (line 55) under JavaScript
truthiness: an absent attribute and the number 0 are both falsy. -/
def effectiveStatus (e : ProviderError) : Nat :=
  let s := e.status.getD 0
  if s != 0 then s
  else
    let s2 := e.statusCode.getD 0
    if s2 != 0 then s2 else 500

/-- The retry condition of lines 69-74:
`status === 429 || status === 404 || status === 400 || (status >= 500 && status < 600)`. -/
def isRetryable (status : Nat) : Bool :=
  status == 429 || status == 404 || status == 400 ||
    (500 ≤ status && status < 600)

/-- `chatCompletion.choices[0]?.message?.content || ""` (line 51). -/
def extractText (c : ChatCompletion) : String :=
  match c.choices.head? with
  | none => ""
  | some ch =>
    match ch.message with
    | none => ""
    | some m => m.content.getD ""

/-- The exhaustion message thrown at lines 32-34. -/
def exhaustionMessage : String :=
  "All AI models failed due to rate limits, server errors, or invalid model names."

/-- How one orchestration run ends: the returned `{result, used_model}`
object, the thrown exhaustion `Error`, or a re-thrown provider error. -/
inductive GenOutcome where
  | success (result : String) (used_model : String)
  | exhausted (message : String)
  | fatal (e : ProviderError)
deriving Repr, DecidableEq

/-- Shallow embedding of `generateWithFallback` (lines 26-81).  The first
component is the outcome; the second is the ordered list of models attempted
(the per-attempt log records).  `models.getD index ""` is `MODELS[index]`,
which the guard keeps in bounds, so the `""` default is never used. -/
def generateWithFallback {α : Type} (provider : α → Nat → String → ProviderResult)
    (models : List String) (prompt : α) (index : Nat) :
    GenOutcome × List String :=
  if _h : models.length ≤ index then
    (.exhausted exhaustionMessage, [])
  else
    let currentModel := models.getD index ""
    match provider prompt index currentModel with
    | .ok c => (.success (extractText c) currentModel, [currentModel])
    | .err e =>
      if isRetryable (effectiveStatus e) then
        let rest := generateWithFallback provider models prompt (index + 1)
        (rest.1, currentModel :: rest.2)
      else
        (.fatal e, [currentModel])
termination_by models.length - index
decreasing_by simp_wf; omega

/-- The transport-level request the handler receives: its method and raw body
(`none` models an absent body, which `!event.body` treats like `""`). -/
structure HandlerEvent where
  httpMethod : String
  body : Option String
deriving Repr, DecidableEq

/-- The response the handler returns; `body` is the JSON value the source
serializes with `JSON.stringify` (the preflight body is the bare string OK). -/
structure HandlerResponse where
  statusCode : Nat
  headers : List (String × String)
  body : JsonValue
deriving Repr

/-- A `{"error": msg}` body. -/
def errorBody (msg : String) : JsonValue :=
  .object [("error", .string msg)]

/-- The catch-all failure body of lines 141-147:
`{error: error.message || "Internal Server Error", details: ...}`. -/
def failureBody (msg : String) : JsonValue :=
  .object [("error", .string (if msg == "" then "Internal Server Error" else msg)),
           ("details", .string "Global failure across all available models.")]

/-- The exact 400 message for a missing prompt (line 124). -/
def missingPromptMessage : String := "Missing \x27prompt\x27 in request body."

/-- Shallow embedding of `handler` (lines 83-149).  `parse` abstracts
`JSON.parse` (`none` = the parse threw); `provider` is the collaborator behind
`generateWithFallback`.  The prompt forwarded to the orchestrator is the
truthy JSON value found at `body.prompt`; reading `body.prompt` when the body
is JSON `null` throws, which the outer catch turns into a 500. -/
def handler (parse : String → Option JsonValue)
    (provider : JsonValue → Nat → String → ProviderResult)
    (event : HandlerEvent) : HandlerResponse :=
  if event.httpMethod == "OPTIONS" then
    ⟨200, CORS_HEADERS, .string "OK"⟩
  else if event.httpMethod != "POST" then
    ⟨405, CORS_HEADERS, errorBody "Method Not Allowed. Use POST."⟩
  else if event.body.getD "" == "" then
    ⟨400, CORS_HEADERS, errorBody "Request body is empty."⟩
  else
    match parse (event.body.getD "") with
    | none => ⟨400, CORS_HEADERS, errorBody "Invalid JSON in request body."⟩
    | some bodyVal =>
      match getProp bodyVal "prompt" with
      | .error msg => ⟨500, CORS_HEADERS, failureBody msg⟩
      | .ok promptVal =>
        if truthy promptVal then
          match (generateWithFallback provider MODELS (promptVal.getD .null) 0).1 with
          | .success result used_model =>
            ⟨200, CORS_HEADERS,
              .object [("result", .string result), ("used_model", .string used_model)]⟩
          | .exhausted msg => ⟨500, CORS_HEADERS, failureBody msg⟩
          | .fatal e => ⟨500, CORS_HEADERS, failureBody e.message⟩
        else
          ⟨400, CORS_HEADERS, errorBody missingPromptMessage⟩

/-! ### Case lemmas for one step of `generateWithFallback` -/

/-- Base case, lines 31-35: past the end of the list the run throws
the exhaustion error and attempts nothing. -/
theorem gwf_exhausted {α : Type} (provider : α → Nat → String → ProviderResult)
    (models : List String) (prompt : α) (index : Nat)
    (h : models.length ≤ index) :
    generateWithFallback provider models prompt index =
      (.exhausted exhaustionMessage, []) := by
  rw [generateWithFallback]
  simp [h]

/-- Success case, lines 43-53: the extracted text and the current model are
returned at once, and only the current model was attempted. -/
theorem gwf_ok {α : Type} (provider : α → Nat → String → ProviderResult)
    (models : List String) (prompt : α) (index : Nat) (c : ChatCompletion)
    (h : index < models.length)
    (hok : provider prompt index (models.getD index "") = .ok c) :
    generateWithFallback provider models prompt index =
      (.success (extractText c) (models.getD index ""), [models.getD index ""]) := by
  rw [generateWithFallback, dif_neg (Nat.not_le.mpr h)]
  simp only [hok]

/-- Retryable-error case, lines 69-77: the run continues at `index + 1`, with
the current model recorded as attempted. -/
theorem gwf_err_retryable {α : Type} (provider : α → Nat → String → ProviderResult)
    (models : List String) (prompt : α) (index : Nat) (e : ProviderError)
    (h : index < models.length)
    (herr : provider prompt index (models.getD index "") = .err e)
    (hr : isRetryable (effectiveStatus e) = true) :
    generateWithFallback provider models prompt index =
      ((generateWithFallback provider models prompt (index + 1)).1,
        models.getD index "" :: (generateWithFallback provider models prompt (index + 1)).2) := by
  rw [generateWithFallback, dif_neg (Nat.not_le.mpr h)]
  simp only [herr, hr, if_true]

/-- Fatal-error case, line 80: the error is re-thrown at once, with only the
current model attempted. -/
theorem gwf_err_fatal {α : Type} (provider : α → Nat → String → ProviderResult)
    (models : List String) (prompt : α) (index : Nat) (e : ProviderError)
    (h : index < models.length)
    (herr : provider prompt index (models.getD index "") = .err e)
    (hr : isRetryable (effectiveStatus e) = false) :
    generateWithFallback provider models prompt index =
      (.fatal e, [models.getD index ""]) := by
  rw [generateWithFallback, dif_neg (Nat.not_le.mpr h)]
  simp only [herr, hr, Bool.false_eq_true, if_false]

/-- With `index` in bounds, the remaining suffix of the model list starts
with `MODELS[index]`. -/
theorem drop_eq_getD_cons (models : List String) (index : Nat)
    (h : index < models.length) :
    models.drop index = models.getD index "" :: models.drop (index + 1) := by
  rw [List.drop_eq_getElem_cons h]
  simp [List.getD_eq_getElem?_getD, List.getElem?_eq_getElem h]

/-- Run-level success lemma: if every attempt at indices `index ≤ i < k`
fails retryably and attempt `k` succeeds, the run started at `index` returns
the completion of attempt `k` and attempts exactly the models at indices
`index..k`, in order. -/
theorem gwf_run_success {α : Type} (provider : α → Nat → String → ProviderResult)
    (models : List String) (prompt : α) (k : Nat) (c : ChatCompletion)
    (hk : k < models.length)
    (hok : provider prompt k (models.getD k "") = .ok c) :
    ∀ n index, k - index = n → index ≤ k →
      (∀ i, index ≤ i → i < k → ∃ e,
          provider prompt i (models.getD i "") = .err e ∧
          isRetryable (effectiveStatus e) = true) →
      generateWithFallback provider models prompt index =
        (.success (extractText c) (models.getD k ""),
          (models.drop index).take (k + 1 - index)) := by
  intro n
  induction n with
  | zero =>
    intro index hn hle _hfail
    have hik : index = k := by omega
    subst hik
    rw [gwf_ok provider models prompt index c hk hok]
    rw [drop_eq_getD_cons models index hk]
    have h1 : index + 1 - index = 1 := by omega
    rw [h1, List.take_succ_cons, List.take_zero]
  | succ n ih =>
    intro index hn hle hfail
    have hik : index < k := by omega
    obtain ⟨e, herr, hr⟩ := hfail index le_rfl hik
    rw [gwf_err_retryable provider models prompt index e (by omega) herr hr]
    rw [ih (index + 1) (by omega) (by omega)
      (fun i h1 h2 => hfail i (by omega) h2)]
    rw [drop_eq_getD_cons models index (by omega)]
    have h1 : k + 1 - index = (k + 1 - (index + 1)) + 1 := by omega
    rw [h1, List.take_succ_cons]

/-- Run-level exhaustion lemma: if every attempt at indices `index ≤ i`
fails retryably, the run started at `index` throws the exhaustion error
after attempting every remaining model in order. -/
theorem gwf_run_exhausted {α : Type} (provider : α → Nat → String → ProviderResult)
    (models : List String) (prompt : α) :
    ∀ n index, models.length - index = n →
      (∀ i, index ≤ i → i < models.length → ∃ e,
          provider prompt i (models.getD i "") = .err e ∧
          isRetryable (effectiveStatus e) = true) →
      generateWithFallback provider models prompt index =
        (.exhausted exhaustionMessage, models.drop index) := by
  intro n
  induction n with
  | zero =>
    intro index hn _hfail
    have h : models.length ≤ index := by omega
    rw [gwf_exhausted provider models prompt index h]
    rw [List.drop_eq_nil_of_le h]
  | succ n ih =>
    intro index hn hfail
    have hik : index < models.length := by omega
    obtain ⟨e, herr, hr⟩ := hfail index le_rfl hik
    rw [gwf_err_retryable provider models prompt index e hik herr hr]
    rw [ih (index + 1) (by omega) (fun i h1 h2 => hfail i (by omega) h2)]
    rw [drop_eq_getD_cons models index hik]

/-- The boolean retry test of lines 69-74 accepts exactly the statuses
400, 404, 429 and 500-599. -/
theorem isRetryable_iff (s : Nat) :
    isRetryable s = true ↔
      (s = 400 ∨ s = 404 ∨ s = 429 ∨ (500 ≤ s ∧ s < 600)) := by
  unfold isRetryable
  simp only [Bool.or_eq_true, beq_iff_eq, Bool.and_eq_true, decide_eq_true_eq]
  omega

/-! ### The claims -/

/-- C1: for every candidate list, prompt and `k < N`, if the provider fails
with a retryable status at indices `0..k-1` and succeeds at index `k`, then
the run returns the text extracted from the completion of attempt `k` with
`used_model = CandidateList[k]`, having attempted exactly the models at
indices `0..k` in priority order and none after the success. -/
theorem claim_C1_first_success (provider : String → Nat → String → ProviderResult)
    (models : List String) (prompt : String) (k : Nat) (c : ChatCompletion)
    (hk : k < models.length)
    (hfail : ∀ i, i < k → ∃ e, provider prompt i (models.getD i "") = .err e ∧
        isRetryable (effectiveStatus e) = true)
    (hok : provider prompt k (models.getD k "") = .ok c) :
    generateWithFallback provider models prompt 0 =
      (.success (extractText c) (models.getD k ""), models.take (k + 1)) := by
  have h := gwf_run_success provider models prompt k c hk hok (k - 0) 0 rfl
    (Nat.zero_le k) (fun i _ h2 => hfail i h2)
  simpa using h

/-- Provider stub for the C1 witness: status 429 at index 0, success with
text "hello" from index 1 on. -/
def stubC1 : String → Nat → String → ProviderResult := fun _ i _ =>
  if i == 0 then .err ⟨some 429, none, "Rate limit reached"⟩
  else .ok ⟨[⟨some ⟨some "hello"⟩⟩]⟩

theorem claim_C1_witness :
    generateWithFallback stubC1 MODELS "hi" 0 =
      (.success (extractText ⟨[⟨some ⟨some "hello"⟩⟩]⟩) (MODELS.getD 1 ""),
        MODELS.take 2) :=
  claim_C1_first_success stubC1 MODELS "hi" 1 ⟨[⟨some ⟨some "hello"⟩⟩]⟩
    (by decide)
    (fun i hi => by
      have h0 : i = 0 := by omega
      subst h0
      exact ⟨⟨some 429, none, "Rate limit reached"⟩, by decide, by decide⟩)
    (by decide)

/-- C2: a provider error is classified by its (effective) status code alone:
a status in {400, 404, 429} or 500-599 makes the run advance to the next
candidate, and any other status makes the run re-raise the error at once,
with no further candidate attempted, whatever the provider would answer
later. -/
theorem claim_C2_classification (provider : String → Nat → String → ProviderResult)
    (models : List String) (prompt : String) (index : Nat) (e : ProviderError)
    (hidx : index < models.length)
    (herr : provider prompt index (models.getD index "") = .err e) :
    (((effectiveStatus e = 400 ∨ effectiveStatus e = 404 ∨ effectiveStatus e = 429) ∨
        (500 ≤ effectiveStatus e ∧ effectiveStatus e < 600)) →
      generateWithFallback provider models prompt index =
        ((generateWithFallback provider models prompt (index + 1)).1,
          models.getD index "" ::
            (generateWithFallback provider models prompt (index + 1)).2)) ∧
    ((¬ ((effectiveStatus e = 400 ∨ effectiveStatus e = 404 ∨ effectiveStatus e = 429) ∨
        (500 ≤ effectiveStatus e ∧ effectiveStatus e < 600))) →
      generateWithFallback provider models prompt index =
        (.fatal e, [models.getD index ""])) := by
  constructor
  · intro hs
    refine gwf_err_retryable provider models prompt index e hidx herr ?_
    rw [isRetryable_iff]
    tauto
  · intro hs
    refine gwf_err_fatal provider models prompt index e hidx herr ?_
    rw [Bool.eq_false_iff, Ne, isRetryable_iff]
    tauto

/-- Provider stub for the C2 witness: status 401 at index 0, success from
index 1 on (which must not be reached). -/
def stubC2 : String → Nat → String → ProviderResult := fun _ i _ =>
  if i == 0 then .err ⟨some 401, none, "Invalid API Key"⟩
  else .ok ⟨[⟨some ⟨some "hello"⟩⟩]⟩

theorem claim_C2_witness :
    generateWithFallback stubC2 MODELS "hi" 0 =
      (.fatal ⟨some 401, none, "Invalid API Key"⟩, [ MODELS.getD 0 ""]) :=
  (claim_C2_classification stubC2 MODELS "hi" 0 ⟨some 401, none, "Invalid API Key"⟩
    (by decide) (by decide)).2 (by decide)

/-- C3: if the provider fails with a retryable status on every candidate,
the run throws the exhaustion error, with its fixed message, after
attempting every candidate in order (exactly N attempts). -/
theorem claim_C3_exhaustion (provider : String → Nat → String → ProviderResult)
    (models : List String) (prompt : String)
    (hfail : ∀ i, i < models.length → ∃ e,
        provider prompt i (models.getD i "") = .err e ∧
        isRetryable (effectiveStatus e) = true) :
    generateWithFallback provider models prompt 0 =
      (.exhausted
        "All AI models failed due to rate limits, server errors, or invalid model names.",
        models) := by
  have h := gwf_run_exhausted provider models prompt (models.length - 0) 0 rfl
    (fun i _ h2 => hfail i h2)
  simpa using h

/-- Provider stub for the C3 witness: status 500 at every index. -/
def stubC3 : String → Nat → String → ProviderResult := fun _ _ _ =>
  .err ⟨some 500, none, "Service unavailable"⟩

theorem claim_C3_witness :
    generateWithFallback stubC3 MODELS "hi" 0 =
      (.exhausted
        "All AI models failed due to rate limits, server errors, or invalid model names.",
        MODELS) :=
  claim_C3_exhaustion stubC3 MODELS "hi"
    (fun _ _ => ⟨⟨some 500, none, "Service unavailable"⟩, rfl, by decide⟩)

/-- Run-level attempt-log lemma: whatever the provider does, the models a run
attempts are a contiguous block of the candidate list starting at the run's
start index. -/
theorem gwf_run_attempts {α : Type} (provider : α → Nat → String → ProviderResult)
    (models : List String) (prompt : α) :
    ∀ n index, models.length - index = n →
      ∃ m, (generateWithFallback provider models prompt index).2 =
        (models.drop index).take m := by
  intro n
  induction n with
  | zero =>
    intro index hn
    refine ⟨0, ?_⟩
    rw [gwf_exhausted provider models prompt index (by omega)]
    simp
  | succ n ih =>
    intro index hn
    have hik : index < models.length := by omega
    cases hok : provider prompt index (models.getD index "") with
    | ok c =>
      refine ⟨1, ?_⟩
      rw [gwf_ok provider models prompt index c hik hok,
        drop_eq_getD_cons models index hik]
      simp
    | err e =>
      cases hr : isRetryable (effectiveStatus e) with
      | true =>
        obtain ⟨m, hm⟩ := ih (index + 1) (by omega)
        refine ⟨m + 1, ?_⟩
        rw [gwf_err_retryable provider models prompt index e hik hok hr,
          drop_eq_getD_cons models index hik, List.take_succ_cons]
        simpa using hm
      | false =>
        refine ⟨1, ?_⟩
        rw [gwf_err_fatal provider models prompt index e hik hok hr,
          drop_eq_getD_cons models index hik]
        simp

/-- C4: for every provider behaviour, the models a run (started at index 0)
attempts form a prefix of the candidate list taken in order: every attempted
model is in the list, and (the list having no duplicate entries) no model is
attempted twice. -/
theorem claim_C4_attempt_invariants (provider : String → Nat → String → ProviderResult)
    (models : List String) (prompt : String) :
    ∃ n, (generateWithFallback provider models prompt 0).2 = models.take n ∧
      (∀ m ∈ (generateWithFallback provider models prompt 0).2, m ∈ models) ∧
      (models.Nodup → (generateWithFallback provider models prompt 0).2.Nodup) := by
  obtain ⟨n, hn⟩ := gwf_run_attempts provider models prompt (models.length - 0) 0 rfl
  rw [List.drop_zero] at hn
  refine ⟨n, hn, ?_, ?_⟩
  · intro m hm
    rw [hn] at hm
    exact List.take_subset n models hm
  · intro hd
    rw [hn]
    exact hd.sublist (List.take_sublist n models)

/-- C5: a successful provider attempt whose completion carries no message
content (no choice, no message, or null content) yields `Success` with the
empty string as text and the attempted candidate as `used_model`. -/
theorem claim_C5_empty_content (provider : String → Nat → String → ProviderResult)
    (models : List String) (prompt : String) (index : Nat) (c : ChatCompletion)
    (hidx : index < models.length)
    (hok : provider prompt index (models.getD index "") = .ok c)
    (hempty : c.choices.head? = none ∨
      (∃ ch, c.choices.head? = some ch ∧ ch.message = none) ∨
      (∃ ch m, c.choices.head? = some ch ∧ ch.message = some m ∧
        m.content = none)) :
    generateWithFallback provider models prompt index =
      (.success "" (models.getD index ""), [models.getD index ""]) := by
  have htext : extractText c = "" := by
    rcases hempty with h | ⟨ch, h1, h2⟩ | ⟨ch, m, h1, h2, h3⟩
    · simp [extractText, h]
    · simp [extractText, h1, h2]
    · simp [extractText, h1, h2, h3]
  rw [gwf_ok provider models prompt index c hidx hok, htext]

/-- Provider stub for the C5 witness: a completion with no choices at all. -/
def stubC5 : String → Nat → String → ProviderResult := fun _ _ _ => .ok ⟨[]⟩

theorem claim_C5_witness :
    generateWithFallback stubC5 MODELS "hi" 0 =
      (.success "" (MODELS.getD 0 ""), [ MODELS.getD 0 ""]) :=
  claim_C5_empty_content stubC5 MODELS "hi" 0 ⟨[]⟩ (by decide) (by decide)
    (Or.inl rfl)

/-- C6: once transport validation passes (POST, non-empty parseable body,
truthy prompt), the handler maps each orchestrator outcome to exactly one
envelope: 200 with result and used_model on success; 500 with the error
message (or Internal Server Error when the message is empty) and the fixed
details line on exhaustion or a re-raised provider error. -/
theorem claim_C6_outcome_envelope (parse : String → Option JsonValue)
    (provider : JsonValue → Nat → String → ProviderResult)
    (event : HandlerEvent) (s : String) (b : JsonValue) (p : Option JsonValue)
    (hm : event.httpMethod = "POST")
    (hb : event.body = some s) (hs : s ≠ "")
    (hp : parse s = some b)
    (hprop : getProp b "prompt" = .ok p)
    (ht : truthy p = true) :
    (∀ t m, (generateWithFallback provider MODELS (p.getD .null) 0).1 = .success t m →
      handler parse provider event =
        ⟨200, CORS_HEADERS,
          .object [("result", .string t), ("used_model", .string m)]⟩) ∧
    (∀ msg, (generateWithFallback provider MODELS (p.getD .null) 0).1 = .exhausted msg →
      handler parse provider event =
        ⟨500, CORS_HEADERS,
          .object [("error", .string (if msg = "" then "Internal Server Error" else msg)),
            ("details", .string "Global failure across all available models.")]⟩) ∧
    (∀ e, (generateWithFallback provider MODELS (p.getD .null) 0).1 = .fatal e →
      handler parse provider event =
        ⟨500, CORS_HEADERS,
          .object
            [("error", .string (if e.message = "" then "Internal Server Error" else e.message)),
            ("details", .string "Global failure across all available models.")]⟩) := by
  refine ⟨fun t m hgen => ?_, fun msg hgen => ?_, fun e hgen => ?_⟩ <;>
    simp [handler, hm, hb, hp, hprop, ht, hgen, hs, failureBody]

/-- Parse stub for the C6 witness: every body parses to an object whose
prompt field is the string hi. -/
def parseC6 : String → Option JsonValue := fun _ =>
  some (.object [("prompt", .string "hi")])

/-- Provider stub for the C6 witness: immediate success with text hello. -/
def stubC6 : JsonValue → Nat → String → ProviderResult := fun _ _ _ =>
  .ok ⟨[⟨some ⟨some "hello"⟩⟩]⟩

theorem claim_C6_witness :
    handler parseC6 stubC6 ⟨"POST", some "B"⟩ =
      ⟨200, CORS_HEADERS,
        .object [("result", .string "hello"),
          ("used_model", .string (MODELS.getD 0 ""))]⟩ :=
  (claim_C6_outcome_envelope parseC6 stubC6 ⟨"POST", some "B"⟩ "B"
      (.object [("prompt", .string "hi")]) (some (.string "hi"))
      rfl rfl (by decide) rfl rfl (by decide)).1 "hello" (MODELS.getD 0 "")
    (by rw [gwf_ok stubC6 MODELS ((some (JsonValue.string "hi")).getD .null) 0
        ⟨[⟨some ⟨some "hello"⟩⟩]⟩ (by decide) rfl]; decide)

/-- C7 (amended): the transport decision table holds row by row — OPTIONS
gives 200 with body OK; any other non-POST method gives 405; a POST with an
empty or missing body gives 400 with the empty-body message; a POST with a
non-parseable body gives 400 with the invalid-JSON message; a POST whose
body parses to a value on which the prompt read yields undefined (the field
is absent; in particular the value is not JSON null) gives 400 with the
missing-prompt message — while a POST whose body parses to JSON null makes
the prompt read throw a TypeError, which the catch-all turns into a 500
with that TypeError message, not a 400. -/
theorem claim_C7_transport_table (parse : String → Option JsonValue)
    (provider : JsonValue → Nat → String → ProviderResult) (event : HandlerEvent) :
    (event.httpMethod = "OPTIONS" →
      handler parse provider event = ⟨200, CORS_HEADERS, .string "OK"⟩) ∧
    (event.httpMethod ≠ "OPTIONS" → event.httpMethod ≠ "POST" →
      handler parse provider event =
        ⟨405, CORS_HEADERS, errorBody "Method Not Allowed. Use POST."⟩) ∧
    (event.httpMethod = "POST" → (event.body = none ∨ event.body = some "") →
      handler parse provider event =
        ⟨400, CORS_HEADERS, errorBody "Request body is empty."⟩) ∧
    (∀ s, event.httpMethod = "POST" → event.body = some s → s ≠ "" →
      parse s = none →
      handler parse provider event =
        ⟨400, CORS_HEADERS, errorBody "Invalid JSON in request body."⟩) ∧
    (∀ s b, event.httpMethod = "POST" → event.body = some s → s ≠ "" →
      parse s = some b → getProp b "prompt" = .ok none →
      handler parse provider event =
        ⟨400, CORS_HEADERS, errorBody missingPromptMessage⟩) ∧
    (∀ s, event.httpMethod = "POST" → event.body = some s → s ≠ "" →
      parse s = some .null →
      handler parse provider event =
        ⟨500, CORS_HEADERS, failureBody (typeErrorMessage "prompt")⟩) := by
  refine ⟨fun h1 => ?_, fun h1 h2 => ?_, fun h1 h2 => ?_,
    fun s h1 h2 h3 h4 => ?_, fun s b h1 h2 h3 h4 h5 => ?_,
    fun s h1 h2 h3 h4 => ?_⟩
  · simp [handler, h1]
  · simp [handler, h1, h2]
  · rcases h2 with h2 | h2 <;> simp [handler, h1, h2]
  · simp [handler, h1, h2, h3, h4]
  · simp [handler, h1, h2, h3, h4, h5, truthy]
  · simp [handler, h1, h2, h3, h4, getProp]

/-- Parse stub agreeing with JSON.parse on the literal null body. -/
def parseNullStub : String → Option JsonValue := fun s =>
  if s = "null" then some .null else none

/-- A provider whose answer never matters for the transport rows. -/
def stubAny : JsonValue → Nat → String → ProviderResult := fun _ _ _ => .ok ⟨[]⟩

/-- C7 counterexample: a POST whose body is the string null parses
successfully to a JSON value with no prompt field, yet the handler answers
500 (with the TypeError message of the null property read and the global
failure details), not 400 with the missing-prompt message. -/
theorem claim_C7_counterexample :
    parseNullStub "null" = some .null ∧
    handler parseNullStub stubAny ⟨"POST", some "null"⟩ =
      ⟨500, CORS_HEADERS, failureBody (typeErrorMessage "prompt")⟩ ∧
    (handler parseNullStub stubAny ⟨"POST", some "null"⟩).statusCode ≠ 400 :=
  ⟨rfl, rfl, by decide⟩

/-- Parse stub for the missing-prompt row: every body parses to the empty
object. -/
def parseEmptyObj : String → Option JsonValue := fun _ => some (.object [])

theorem claim_C7_witness :
    handler parseNullStub stubAny ⟨"OPTIONS", none⟩ =
      ⟨200, CORS_HEADERS, .string "OK"⟩ ∧
    handler parseNullStub stubAny ⟨"GET", none⟩ =
      ⟨405, CORS_HEADERS, errorBody "Method Not Allowed. Use POST."⟩ ∧
    handler parseNullStub stubAny ⟨"POST", none⟩ =
      ⟨400, CORS_HEADERS, errorBody "Request body is empty."⟩ ∧
    handler parseNullStub stubAny ⟨"POST", some "X"⟩ =
      ⟨400, CORS_HEADERS, errorBody "Invalid JSON in request body."⟩ ∧
    handler parseEmptyObj stubAny ⟨"POST", some "E"⟩ =
      ⟨400, CORS_HEADERS, errorBody missingPromptMessage⟩ ∧
    handler parseNullStub stubAny ⟨"POST", some "null"⟩ =
      ⟨500, CORS_HEADERS, failureBody (typeErrorMessage "prompt")⟩ :=
  ⟨(claim_C7_transport_table parseNullStub stubAny ⟨"OPTIONS", none⟩).1 rfl,
   (claim_C7_transport_table parseNullStub stubAny ⟨"GET", none⟩).2.1
     (by decide) (by decide),
   (claim_C7_transport_table parseNullStub stubAny ⟨"POST", none⟩).2.2.1
     rfl (Or.inl rfl),
   (claim_C7_transport_table parseNullStub stubAny ⟨"POST", some "X"⟩).2.2.2.1
     "X" rfl rfl (by decide) rfl,
   (claim_C7_transport_table parseEmptyObj stubAny ⟨"POST", some "E"⟩).2.2.2.2.1
     "E" (.object []) rfl rfl (by decide) rfl rfl,
   (claim_C7_transport_table parseNullStub stubAny ⟨"POST", some "null"⟩).2.2.2.2.2
     "null" rfl rfl (by decide) rfl⟩

/-- C8: every response the handler returns, whatever the request, the parse
result and the provider behaviour, carries exactly the fixed CORS headers. -/
theorem claim_C8_cors_headers (parse : String → Option JsonValue)
    (provider : JsonValue → Nat → String → ProviderResult)
    (event : HandlerEvent) :
    (handler parse provider event).headers = CORS_HEADERS := by
  unfold handler
  repeat' split
  all_goals rfl

/-- C9: a provider error with no truthy status attribute (status and
statusCode both absent or zero) gets the substitute status 500, is
classified retryable, and makes the run advance; and whenever the
classification is not retryable (the fatal path), the error carried an
explicit truthy status, that status is the effective one, and it lies
outside {400, 404, 429} and outside 500-599. -/
theorem claim_C9_defaulted_status (provider : String → Nat → String → ProviderResult)
    (models : List String) (prompt : String) (index : Nat) (e : ProviderError)
    (hidx : index < models.length)
    (herr : provider prompt index (models.getD index "") = .err e) :
    ((e.status.getD 0 = 0 ∧ e.statusCode.getD 0 = 0) →
      effectiveStatus e = 500 ∧ isRetryable (effectiveStatus e) = true ∧
      generateWithFallback provider models prompt index =
        ((generateWithFallback provider models prompt (index + 1)).1,
          models.getD index "" ::
            (generateWithFallback provider models prompt (index + 1)).2)) ∧
    (isRetryable (effectiveStatus e) = false →
      generateWithFallback provider models prompt index =
        (.fatal e, [ models.getD index ""]) ∧
      ((e.status.getD 0 ≠ 0 ∧ effectiveStatus e = e.status.getD 0) ∨
        (e.status.getD 0 = 0 ∧ e.statusCode.getD 0 ≠ 0 ∧
          effectiveStatus e = e.statusCode.getD 0)) ∧
      effectiveStatus e ≠ 400 ∧ effectiveStatus e ≠ 404 ∧
      effectiveStatus e ≠ 429 ∧
      ¬ (500 ≤ effectiveStatus e ∧ effectiveStatus e < 600)) := by
  constructor
  · rintro ⟨h1, h2⟩
    have hes : effectiveStatus e = 500 := by
      unfold effectiveStatus
      simp [h1, h2]
    refine ⟨hes, ?_, ?_⟩
    · rw [hes]
      decide
    · exact gwf_err_retryable provider models prompt index e hidx herr
        (by rw [hes]; decide)
  · intro hr
    have hnot : ¬ (effectiveStatus e = 400 ∨ effectiveStatus e = 404 ∨
        effectiveStatus e = 429 ∨ (500 ≤ effectiveStatus e ∧ effectiveStatus e < 600)) := by
      rw [← isRetryable_iff, hr]
      simp
    refine ⟨gwf_err_fatal provider models prompt index e hidx herr hr, ?_, ?_, ?_, ?_, ?_⟩
    · by_cases h1 : e.status.getD 0 = 0
      · by_cases h2 : e.statusCode.getD 0 = 0
        · exfalso
          apply hnot
          have hes : effectiveStatus e = 500 := by
            unfold effectiveStatus
            simp [h1, h2]
          omega
        · right
          refine ⟨h1, h2, ?_⟩
          unfold effectiveStatus
          simp [h1, h2]
      · left
        refine ⟨h1, ?_⟩
        unfold effectiveStatus
        simp [h1]
    · tauto
    · tauto
    · tauto
    · tauto

/-- Provider stub for the C9 witness: a connection-style error carrying no
status attribute at all, at every index. -/
def stubC9 : String → Nat → String → ProviderResult := fun _ _ _ =>
  .err ⟨none, none, "socket hang up"⟩

theorem claim_C9_witness :
    effectiveStatus ⟨none, none, "socket hang up"⟩ = 500 ∧
    isRetryable (effectiveStatus ⟨none, none, "socket hang up"⟩) = true ∧
    generateWithFallback stubC9 MODELS "hi" 0 =
      ((generateWithFallback stubC9 MODELS "hi" 1).1,
        MODELS.getD 0 "" :: (generateWithFallback stubC9 MODELS "hi" 1).2) :=
  (claim_C9_defaulted_status stubC9 MODELS "hi" 0 ⟨none, none, "socket hang up"⟩
    (by decide) rfl).1 ⟨rfl, rfl⟩

/-- C10: a POST whose parsed body carries a prompt field bound to a falsy
value (empty string, 0, false or null) is answered 400 with the
missing-prompt message, and the response does not depend on the provider:
the orchestrator is never consulted. -/
theorem claim_C10_falsy_prompt (parse : String → Option JsonValue)
    (provider : JsonValue → Nat → String → ProviderResult)
    (event : HandlerEvent) (s : String) (b : JsonValue) (p : JsonValue)
    (hm : event.httpMethod = "POST")
    (hb : event.body = some s) (hs : s ≠ "")
    (hp : parse s = some b)
    (hfield : getProp b "prompt" = .ok (some p))
    (hfalsy : truthy (some p) = false) :
    handler parse provider event =
      ⟨400, CORS_HEADERS, errorBody missingPromptMessage⟩ ∧
    (∀ provider2 : JsonValue → Nat → String → ProviderResult,
      handler parse provider2 event = handler parse provider event) := by
  have hone : ∀ q : JsonValue → Nat → String → ProviderResult,
      handler parse q event = ⟨400, CORS_HEADERS, errorBody missingPromptMessage⟩ := by
    intro q
    simp [handler, hm, hb, hs, hp, hfield, hfalsy]
  exact ⟨hone provider, fun q => by rw [hone q, hone provider]⟩

/-- Parse stub for the C10 witness: every body parses to an object whose
prompt field is the empty string. -/
def parseC10 : String → Option JsonValue := fun _ =>
  some (.object [("prompt", .string "")])

theorem claim_C10_witness :
    handler parseC10 stubAny ⟨"POST", some "E"⟩ =
      ⟨400, CORS_HEADERS, errorBody missingPromptMessage⟩ ∧
    (∀ provider2 : JsonValue → Nat → String → ProviderResult,
      handler parseC10 provider2 ⟨"POST", some "E"⟩ =
        handler parseC10 stubAny ⟨"POST", some "E"⟩) :=
  claim_C10_falsy_prompt parseC10 stubAny ⟨"POST", some "E"⟩ "E"
    (.object [("prompt", .string "")]) (.string "")
    rfl rfl (by decide) rfl rfl (by decide)

end GroqPrompt
